import Mathlib

/-!
# Verification of the solo2 provisioner app command interpreter

Shallow embedding of `components/provisioner-app` (lib.rs, apdu.rs, ctaphid.rs):
the provisioner command interpreter, its two scratch buffers, the abstract
path-addressed store, and the two transport adapters (APDU and CTAPHID).

Bytes are modelled as `Nat`, byte buffers as `List Nat`.  The external
collaborators (trussed crypto service, littlefs2-backed store, hal) are
modelled as an `Env` of injected functions and flags, per the spec's
"external collaborators" scoping.  Panicking operations (`unwrap` on
capacity-checked appends, unchecked slice indexing) are modelled by an
explicit `panic` outcome of the interpreter.
-/

/-- `SelectedBuffer` from lib.rs: which scratch buffer write chunks target. -/
inductive SelectedBuffer where
  | Filename
  | File
deriving DecidableEq, Repr

/-- `Status` from lib.rs: the interpreter's closed error taxonomy. -/
inductive Status where
  | NotFound
  | WrongLength
  | NotEnoughMemory
  | IncorrectDataParameter
deriving DecidableEq, Repr

/-- `TestAttestationMode` from lib.rs (feature `test-attestation`). -/
inductive TestAttestationMode where
  | P256Sign
  | P256Cert
  | Ed255Sign
  | Ed255Cert
  | X255Agree
  | X255Cert
  | T1Key
deriving DecidableEq, Repr

/-- `Command` from lib.rs: the shared transport-agnostic command vocabulary. -/
inductive Command where
  | Select
  | WriteBinary
  | WriteFile
  | BootToBootrom
  | ReformatFilesystem
  | GetUuid
  | GenerateP256Key
  | GenerateEd255Key
  | GenerateX255Key
  | SaveP256AttestationCertificate
  | SaveEd255AttestationCertificate
  | SaveX255AttestationCertificate
  | SaveT1IntermediatePublicKey
  | TestAttestation (mode : TestAttestationMode)
deriving DecidableEq, Repr

/-- trussed `key::Kind`, restricted to the kinds the provisioner uses. -/
inductive KeyKind where
  | P256
  | Ed255
  | X255
deriving DecidableEq, Repr

/-- trussed `key::Flags`: `LOCAL` and `SENSITIVE` bits. -/
structure Flags where
  localFlag : Bool
  sensitive : Bool
deriving DecidableEq, Repr

/-- trussed `key::Key`: flags, kind and raw key material. -/
structure Key where
  flags : Flags
  kind : KeyKind
  material : List Nat
deriving DecidableEq, Repr

def kindByte : KeyKind → Nat
  | .P256 => 1
  | .Ed255 => 2
  | .X255 => 3

/-- Modelled from the spec: trussed `Key::serialize`, the opaque injective
serialization of a Key record ("serialized opaquely and stored at a
kind-specific fixed path").  One flags byte (bit 0 = local, bit 1 =
sensitive), one kind byte, then the material bytes. -/
def keySerialize (k : Key) : List Nat :=
  ((if k.flags.localFlag then 1 else 0) + (if k.flags.sensitive then 2 else 0))
    :: kindByte k.kind :: k.material

/-- Modelled from the spec: trussed `Key::try_deserialize`, the inverse of
`keySerialize`; fails on malformed stored bytes. -/
def keyDeserialize : List Nat → Option Key
  | f :: kb :: material =>
      if f ≤ 3 then
        match kb with
        | 1 => some ⟨⟨f % 2 = 1, 2 ≤ f⟩, .P256, material⟩
        | 2 => some ⟨⟨f % 2 = 1, 2 ≤ f⟩, .Ed255, material⟩
        | 3 => some ⟨⟨f % 2 = 1, 2 ≤ f⟩, .X255, material⟩
        | _ => none
      else none
  | _ => none

def pathBytes (s : String) : List Nat := s.toList.map Char.toNat

/-- `FILENAME_T1_PUBLIC = b"/attn/pub/00"` from lib.rs. -/
def FILENAME_T1_PUBLIC : List Nat := pathBytes "/attn/pub/00"

/-- `FILENAME_P256_SECRET = b"/attn/sec/01"` from lib.rs. -/
def FILENAME_P256_SECRET : List Nat := pathBytes "/attn/sec/01"

/-- `FILENAME_ED255_SECRET = b"/attn/sec/02"` from lib.rs. -/
def FILENAME_ED255_SECRET : List Nat := pathBytes "/attn/sec/02"

/-- `FILENAME_X255_SECRET = b"/attn/sec/03"` from lib.rs. -/
def FILENAME_X255_SECRET : List Nat := pathBytes "/attn/sec/03"

/-- `FILENAME_P256_CERT = b"/attn/x5c/01"` from lib.rs. -/
def FILENAME_P256_CERT : List Nat := pathBytes "/attn/x5c/01"

/-- `FILENAME_ED255_CERT = b"/attn/x5c/02"` from lib.rs. -/
def FILENAME_ED255_CERT : List Nat := pathBytes "/attn/x5c/02"

/-- `FILENAME_X255_CERT = b"/attn/x5c/03"` from lib.rs. -/
def FILENAME_X255_CERT : List Nat := pathBytes "/attn/x5c/03"

/-- `TESTER_FILENAME_ID = [0xe1, 0x01]` from lib.rs. -/
def TESTER_FILENAME_ID : List Nat := [0xe1, 0x01]

/-- `TESTER_FILE_ID = [0xe1, 0x02]` from lib.rs. -/
def TESTER_FILE_ID : List Nat := [0xe1, 0x02]

/-- `SOLO_PROVISIONER_AID` from lib.rs. -/
def SOLO_PROVISIONER_AID : List Nat :=
  [0xA0, 0x00, 0x00, 0x08, 0x47, 0x01, 0x00, 0x00, 0x01]

/-- slice `starts_with`: does `data` begin with the bytes of `tag`? -/
def startsWith : List Nat → List Nat → Bool
  | _, [] => true
  | [], _ :: _ => false
  | d :: ds, t :: ts => d = t && startsWith ds ts

/-- The abstract path-addressed store (littlefs2-backed, external): a map
from path bytes to stored contents. -/
def StoreMap : Type := List Nat → Option (List Nat)

/-- A store write (`store::store`): on success the path maps to the new
contents and all other paths are untouched. -/
def storePut (σ : StoreMap) (path val : List Nat) : StoreMap :=
  fun p => if p = path then some val else σ p

/-- The mutable fields of `Provisioner` from lib.rs, plus the abstract
contents of its owned store.  The trussed client handle is modelled by
`Env` instead. -/
structure Provisioner where
  selected_buffer : SelectedBuffer
  buffer_filename : List Nat
  buffer_file_contents : List Nat
  store : StoreMap

/-- Injected external collaborators: store/format success of the flash
backend, the bytes produced by `random_bytes(32)`, the device UUID, and the
deterministic crypto-engine operations (nisty / salty / trussed syscalls),
each a pure function of its inputs. -/
structure Env where
  storeOk : Bool
  formatOk : Bool
  randomBytes : List Nat
  uuid : List Nat
  nistyPublic : List Nat → List Nat
  saltyEdPublic : List Nat → List Nat
  saltyXPublic : List Nat → List Nat
  signP256 : List Nat → List Nat
  signEd255 : List Nat → List Nat
  agreeX255 : List Nat → List Nat
  hmacSha256 : List Nat → List Nat → List Nat

/-- Result of one interpreter invocation: the updated state, the reply
bytes appended, and `Ok`/`Err` — or a panic (a failed `unwrap` / unchecked
index), or the non-returning reboot of `BootToBootrom`. -/
inductive Outcome (E : Type) where
  | done (st : Provisioner) (reply : List Nat) (res : Except E Unit)
  | panic
  | reboot

def Outcome.stateOf {E : Type} : Outcome E → Option Provisioner
  | .done st _ _ => some st
  | _ => none

def Outcome.replyOf {E : Type} : Outcome E → Option (List Nat)
  | .done _ r _ => some r
  | _ => none

/-- heapless `Vec::extend_from_slice` under capacity `cap`; `none` models
the `Err` that the source `unwrap`s. -/
def extendFromSlice (cap : Nat) (buf data : List Nat) : Option (List Nat) :=
  if buf.length + data.length ≤ cap then some (buf ++ data) else none

/-- `Provisioner::select` from lib.rs (lines 501-516): set `selected_buffer`
according to the recognized tag; unknown tags give `NotFound`.  It does not
touch the scratch buffers. -/
def Provisioner.select (s : Provisioner) (data : List Nat) :
    Provisioner × Except Status Unit :=
  if startsWith data TESTER_FILENAME_ID then
    ({ s with selected_buffer := .Filename }, .ok ())
  else if startsWith data TESTER_FILE_ID then
    ({ s with selected_buffer := .File }, .ok ())
  else
    (s, .error .NotFound)

/-- `Provisioner::handle` from lib.rs (lines 140-499): the shared
transport-agnostic command interpreter.  The reply buffer starts empty and
the returned reply lists the bytes the source appends to it. -/
def handle (env : Env) (s : Provisioner) (command : Command) (data : List Nat) :
    Outcome Status :=
  match command with
  | .Select =>
      let res := s.select data
      .done res.1 [] res.2
  | .WriteBinary =>
      match s.selected_buffer with
      | .Filename =>
          match extendFromSlice 128 s.buffer_filename data with
          | some b => .done { s with buffer_filename := b } [] (.ok ())
          | none => .panic
      | .File =>
          match extendFromSlice 8192 s.buffer_file_contents data with
          | some b => .done { s with buffer_file_contents := b } [] (.ok ())
          | none => .panic
  | .ReformatFilesystem =>
      if env.formatOk then
        .done { s with store := fun _ => none } [] (.ok ())
      else
        .done s [] (.error .NotEnoughMemory)
  | .WriteFile =>
      if s.buffer_file_contents.length = 0 ∨ s.buffer_filename.length = 0 then
        .done s [] (.error .IncorrectDataParameter)
      else
        let σ := if env.storeOk then
            storePut s.store s.buffer_filename s.buffer_file_contents
          else s.store
        let s' := { s with store := σ, buffer_file_contents := [],
                           buffer_filename := [] }
        if env.storeOk then .done s' [] (.ok ())
        else .done s' [] (.error .NotEnoughMemory)
  | .GenerateP256Key =>
      if env.randomBytes.length = 32 then
        let seed := env.randomBytes
        let serialized := keySerialize ⟨⟨true, true⟩, .P256, seed⟩
        if env.storeOk then
          .done { s with store := storePut s.store FILENAME_P256_SECRET serialized }
            (env.nistyPublic seed) (.ok ())
        else .done s [] (.error .NotEnoughMemory)
      else .panic
  | .GenerateEd255Key =>
      if env.randomBytes.length = 32 then
        let seed := env.randomBytes
        let serialized := keySerialize ⟨⟨true, true⟩, .Ed255, seed⟩
        if env.storeOk then
          .done { s with store := storePut s.store FILENAME_ED255_SECRET serialized }
            (env.saltyEdPublic seed) (.ok ())
        else .done s [] (.error .NotEnoughMemory)
      else .panic
  | .GenerateX255Key =>
      if env.randomBytes.length = 32 then
        let seed := env.randomBytes
        let serialized := keySerialize ⟨⟨true, true⟩, .X255, seed⟩
        if env.storeOk then
          .done { s with store := storePut s.store FILENAME_X255_SECRET serialized }
            (env.saltyXPublic seed) (.ok ())
        else .done s [] (.error .NotEnoughMemory)
      else .panic
  | .SaveP256AttestationCertificate =>
      if s.store FILENAME_P256_SECRET = none then
        .done s [] (.error .IncorrectDataParameter)
      else if data.length < 100 then
        .done s [] (.error .IncorrectDataParameter)
      else if env.storeOk then
        .done { s with store := storePut s.store FILENAME_P256_CERT data } [] (.ok ())
      else .done s [] (.error .NotEnoughMemory)
  | .SaveEd255AttestationCertificate =>
      if s.store FILENAME_ED255_SECRET = none then
        .done s [] (.error .IncorrectDataParameter)
      else if data.length < 100 then
        .done s [] (.error .IncorrectDataParameter)
      else if env.storeOk then
        .done { s with store := storePut s.store FILENAME_ED255_CERT data } [] (.ok ())
      else .done s [] (.error .NotEnoughMemory)
  | .SaveX255AttestationCertificate =>
      if s.store FILENAME_X255_SECRET = none then
        .done s [] (.error .IncorrectDataParameter)
      else if data.length < 100 then
        .done s [] (.error .IncorrectDataParameter)
      else if env.storeOk then
        .done { s with store := storePut s.store FILENAME_X255_CERT data } [] (.ok ())
      else .done s [] (.error .NotEnoughMemory)
  | .SaveT1IntermediatePublicKey =>
      if data.length ≠ 64 then
        .done s [] (.error .IncorrectDataParameter)
      else
        let serialized := keySerialize ⟨⟨false, false⟩, .P256, data⟩
        if env.storeOk then
          .done { s with store := storePut s.store FILENAME_T1_PUBLIC serialized }
            [] (.ok ())
        else .done s [] (.error .NotEnoughMemory)
  | .TestAttestation mode =>
      if env.randomBytes.length = 32 then
        let challenge := env.randomBytes
        match mode with
        | .P256Sign =>
            .done s (challenge ++ env.signP256 challenge) (.ok ())
        | .P256Cert =>
            match s.store FILENAME_P256_CERT with
            | none => .done s [] (.error .NotFound)
            | some cert => .done s cert (.ok ())
        | .Ed255Sign =>
            .done s (challenge ++ env.signEd255 challenge) (.ok ())
        | .Ed255Cert =>
            match s.store FILENAME_ED255_CERT with
            | none => .done s [] (.error .NotFound)
            | some cert => .done s cert (.ok ())
        | .X255Agree =>
            if 32 ≤ data.length then
              let platform_pk_bytes := data.take 32
              let shared_secret := env.agreeX255 platform_pk_bytes
              let sig := env.hmacSha256 shared_secret challenge
              .done s (challenge ++ sig) (.ok ())
            else .panic
        | .X255Cert =>
            match s.store FILENAME_X255_CERT with
            | none => .done s [] (.error .NotFound)
            | some cert => .done s cert (.ok ())
        | .T1Key =>
            match s.store FILENAME_T1_PUBLIC with
            | none => .done s [] (.error .NotFound)
            | some bytes =>
                match keyDeserialize bytes with
                | none => .done s [] (.error .WrongLength)
                | some k => .done s k.material (.ok ())
      else .panic
  | .GetUuid =>
      .done s env.uuid (.ok ())
  | .BootToBootrom =>
      .reboot

/-!
## Transport adapters (apdu.rs, ctaphid.rs)
-/

/-- iso7816 `Status` values used by the APDU adapter. -/
inductive ApduStatus where
  | FunctionNotSupported
  | NotFound
  | WrongLength
  | NotEnoughMemory
  | IncorrectDataParameter
deriving DecidableEq, Repr

/-- An APDU command frame: instruction byte, the two parameter bytes and the
payload (the fields of `apdu_dispatch::Command` the adapter consumes). -/
structure ApduCommand where
  ins : Nat
  p1 : Nat
  p2 : Nat
  data : List Nat
deriving DecidableEq, Repr

/-- iso7816 `Instruction`, restricted to what the adapter consumes.
Modelled from the spec: instruction byte decoding of the external iso7816
layer — the standard `Select` (0xA4) and `WriteBinary` (0xD0) instructions,
all vendor-range bytes surfacing as `Unknown`. -/
inductive Instruction where
  | Select
  | WriteBinary
  | Unknown (ins : Nat)
deriving DecidableEq, Repr

/-- Modelled from the spec: `ApduCommand::instruction()` of the external
apdu layer, mapping the instruction byte to `Instruction`. -/
def instructionOf (ins : Nat) : Instruction :=
  if ins = 0xA4 then .Select
  else if ins = 0xD0 then .WriteBinary
  else .Unknown ins

/-- `TryFrom<u8> for TestAttestationP1` composed with
`From<TestAttestationP1> for TestAttestationMode` from apdu.rs. -/
def testAttestationP1 (p1 : Nat) : Option TestAttestationMode :=
  match p1 with
  | 0 => some .P256Sign
  | 1 => some .P256Cert
  | 2 => some .Ed255Sign
  | 3 => some .Ed255Cert
  | 4 => some .X255Agree
  | 5 => some .X255Cert
  | 6 => some .T1Key
  | _ => none

/-- `TryFrom<&ApduCommand> for Command` from apdu.rs (lines 112-148),
with the vendor byte table of `Instructions` (lines 15-65) inlined. -/
def apduDecode (a : ApduCommand) : Except ApduStatus Command :=
  match instructionOf a.ins with
  | .Select => .ok .Select
  | .WriteBinary => .ok .WriteBinary
  | .Unknown ins =>
      if ins = 0xbf then .ok .WriteFile
      else if ins = 0x51 then .ok .BootToBootrom
      else if ins = 0xbd then .ok .ReformatFilesystem
      else if ins = 0x62 then .ok .GetUuid
      else if ins = 0xbc then .ok .GenerateP256Key
      else if ins = 0xbb then .ok .GenerateEd255Key
      else if ins = 0xb7 then .ok .GenerateX255Key
      else if ins = 0xba then .ok .SaveP256AttestationCertificate
      else if ins = 0xb9 then .ok .SaveEd255AttestationCertificate
      else if ins = 0xb6 then .ok .SaveX255AttestationCertificate
      else if ins = 0xb5 then .ok .SaveT1IntermediatePublicKey
      else if ins = 0xb8 then
        match testAttestationP1 a.p1 with
        | some m => .ok (.TestAttestation m)
        | none => .error .FunctionNotSupported
      else .error .FunctionNotSupported

/-- `From<Status> for ApduStatus` from apdu.rs (lines 150-159). -/
def apduStatusOf : Status → ApduStatus
  | .NotFound => .NotFound
  | .WrongLength => .WrongLength
  | .NotEnoughMemory => .NotEnoughMemory
  | .IncorrectDataParameter => .IncorrectDataParameter

/-- The APDU application-selection hook `App::select` from apdu.rs
(lines 177-183): clears both scratch buffers and replies with the device
UUID.  It does not touch `selected_buffer`. -/
def apduSelect (env : Env) (s : Provisioner) : Provisioner × List Nat :=
  ({ s with buffer_file_contents := [], buffer_filename := [] }, env.uuid)

/-- The APDU `App::call` from apdu.rs (lines 188-191): decode into the
shared `Command`, run the interpreter, map errors to APDU status words. -/
def apduCall (env : Env) (s : Provisioner) (a : ApduCommand) :
    Outcome ApduStatus :=
  match apduDecode a with
  | .error e => .done s [] (.error e)
  | .ok c =>
      match handle env s c a.data with
      | .done st r (.ok u) => .done st r (.ok u)
      | .done st r (.error e) => .done st r (.error (apduStatusOf e))
      | .panic => .panic
      | .reboot => .reboot

/-- ctaphid_dispatch command frames as the adapter distinguishes them:
a vendor command byte, or any non-vendor command. -/
inductive HidCommand where
  | vendor (code : Nat)
  | nonVendor
deriving DecidableEq, Repr

/-- ctaphid_dispatch errors used by the adapter. -/
inductive HidError where
  | InvalidCommand
  | InvalidLength
deriving DecidableEq, Repr

/-- The seven vendor command codes `H70`-`H76` declared by `commands` in
ctaphid.rs (lines 22-33). -/
def hidCommands : List Nat := [0x70, 0x71, 0x72, 0x73, 0x74, 0x75, 0x76]

/-- The vendor-code-to-`Command` table inside `hid::App::call` in ctaphid.rs
(lines 38-49). -/
def ctaphidDecode (code : Nat) : Option Command :=
  if code = 0x70 then some .Select
  else if code = 0x71 then some .WriteBinary
  else if code = 0x72 then some .WriteFile
  else if code = 0x73 then some .GetUuid
  else if code = 0x74 then some .GenerateP256Key
  else if code = 0x75 then some .SaveP256AttestationCertificate
  else if code = 0x76 then some .SaveT1IntermediatePublicKey
  else none

/-- `hid::App::call` from ctaphid.rs (lines 35-56): non-vendor commands and
undeclared vendor codes are rejected with `InvalidCommand` before the
interpreter runs; every interpreter error is collapsed to `InvalidLength`. -/
def hidCall (env : Env) (s : Provisioner) (cmd : HidCommand)
    (input : List Nat) : Outcome HidError :=
  match cmd with
  | .nonVendor => .done s [] (.error .InvalidCommand)
  | .vendor code =>
      match ctaphidDecode code with
      | none => .done s [] (.error .InvalidCommand)
      | some c =>
          match handle env s c input with
          | .done st r (.ok u) => .done st r (.ok u)
          | .done st r (.error _) => .done st r (.error .InvalidLength)
          | .panic => .panic
          | .reboot => .reboot

/-!
## Concrete fixtures for witnesses and counterexamples
-/

/-- A concrete environment: all external calls succeed, randomness and
crypto outputs are fixed. -/
def envT : Env :=
  { storeOk := true
    formatOk := true
    randomBytes := List.replicate 32 0
    uuid := List.replicate 16 0
    nistyPublic := fun _ => []
    saltyEdPublic := fun _ => []
    saltyXPublic := fun _ => []
    signP256 := fun _ => []
    signEd255 := fun _ => []
    agreeX255 := fun _ => []
    hmacSha256 := fun _ _ => [] }

/-- The freshly constructed provisioner state (`Provisioner::new`) over an
empty store. -/
def emptyState : Provisioner :=
  { selected_buffer := .Filename
    buffer_filename := []
    buffer_file_contents := []
    store := fun _ => none }

/-- A state with both scratch buffers non-empty. -/
def sFull : Provisioner :=
  { selected_buffer := .File
    buffer_filename := [1]
    buffer_file_contents := [2]
    store := fun _ => none }

/-- A state with an empty path buffer but non-empty content buffer. -/
def sContentsOnly : Provisioner :=
  { selected_buffer := .File
    buffer_filename := []
    buffer_file_contents := [7]
    store := fun _ => none }

/-!
## Claims
-/

/-- C4: in every state in which the path buffer or the content buffer is
empty, `WriteFile` returns `IncorrectDataParameter` and leaves the whole
state — in particular the store — unchanged. -/
theorem writeFile_empty_buffer_rejected (env : Env) (s : Provisioner)
    (data : List Nat)
    (h : s.buffer_filename = [] ∨ s.buffer_file_contents = []) :
    handle env s .WriteFile data =
      .done s [] (.error .IncorrectDataParameter) := by
  have hlen : s.buffer_file_contents.length = 0 ∨ s.buffer_filename.length = 0 := by
    rcases h with h | h <;> simp [h]
  simp only [handle]
  rw [if_pos hlen]

theorem writeFile_empty_buffer_rejected_witness :
    (emptyState.buffer_filename = [] ∨ emptyState.buffer_file_contents = []) ∧
    handle envT emptyState .WriteFile [] =
      .done emptyState [] (.error .IncorrectDataParameter) :=
  ⟨Or.inl rfl, writeFile_empty_buffer_rejected envT emptyState [] (Or.inl rfl)⟩

/-- C7: `SaveT1IntermediatePublicKey` rejects every payload whose length is
not 64 with `IncorrectDataParameter` (state unchanged), and for a 64-byte
payload (when the store write succeeds) stores at `/attn/pub/00` the
serialized Key record with the payload as material and no flags set. -/
theorem saveT1_length_check (env : Env) (s : Provisioner) (data : List Nat) :
    (data.length ≠ 64 →
      handle env s .SaveT1IntermediatePublicKey data =
        .done s [] (.error .IncorrectDataParameter)) ∧
    (data.length = 64 → env.storeOk = true →
      handle env s .SaveT1IntermediatePublicKey data =
        .done { s with store := (storePut s.store FILENAME_T1_PUBLIC
                  (keySerialize ⟨⟨false, false⟩, .P256, data⟩)) } [] (.ok ())) := by
  constructor
  · intro h
    simp only [handle]
    rw [if_pos h]
  · intro h hok
    simp [handle, h, hok]

theorem saveT1_length_check_witness :
    ((List.replicate 63 0).length ≠ 64 ∧
      handle envT emptyState .SaveT1IntermediatePublicKey (List.replicate 63 0) =
        .done emptyState [] (.error .IncorrectDataParameter)) ∧
    ((List.replicate 64 0).length = 64 ∧ envT.storeOk = true ∧
      handle envT emptyState .SaveT1IntermediatePublicKey (List.replicate 64 0) =
        .done { emptyState with store := (storePut emptyState.store FILENAME_T1_PUBLIC
                  (keySerialize ⟨⟨false, false⟩, .P256, List.replicate 64 0⟩)) }
          [] (.ok ())) :=
  ⟨⟨by decide,
    (saveT1_length_check envT emptyState (List.replicate 63 0)).1 (by decide)⟩,
   ⟨by decide, rfl,
    (saveT1_length_check envT emptyState (List.replicate 64 0)).2 (by decide) rfl⟩⟩

/-- C10: the `TestAttestation` `X255Agree` sub-mode copies a 32-byte
prefix of the input frame without a length check: the interpreter panics
(the guarded-indexing error branch) exactly when the input is shorter than
32 bytes, so the operation is total only under the precondition
`32 ≤ data.length`. -/
theorem x255Agree_unchecked_prefix (env : Env) (s : Provisioner)
    (data : List Nat) (h32 : env.randomBytes.length = 32) :
    handle env s (.TestAttestation .X255Agree) data = .panic ↔
      data.length < 32 := by
  simp only [handle, h32, if_true]
  by_cases h : 32 ≤ data.length
  · rw [if_pos h]
    constructor
    · intro hcontra
      exact absurd hcontra (by simp)
    · intro hlt
      omega
  · rw [if_neg h]
    simp only [true_iff]
    omega

theorem x255Agree_unchecked_prefix_witness :
    envT.randomBytes.length = 32 ∧
    (handle envT emptyState (.TestAttestation .X255Agree) [0, 1, 2] = .panic ↔
      ([0, 1, 2] : List Nat).length < 32) :=
  ⟨by decide, x255Agree_unchecked_prefix envT emptyState [0, 1, 2] (by decide)⟩

/-- C5: with a 32-byte seed from the random-bytes service and a succeeding
store, each generate-key command stores at its kind's fixed secret path the
serialized Key record whose material is the seed and whose flags are
local+sensitive, and replies with the public key derived from that seed;
hence two runs under the same seed produce byte-identical replies. -/
theorem generateKeys_deterministic (env : Env) (s s' : Provisioner)
    (data data' : List Nat)
    (h32 : env.randomBytes.length = 32) (hok : env.storeOk = true) :
    (handle env s .GenerateP256Key data =
      .done { s with store := (storePut s.store FILENAME_P256_SECRET
                (keySerialize ⟨⟨true, true⟩, .P256, env.randomBytes⟩)) }
        (env.nistyPublic env.randomBytes) (.ok ())) ∧
    (handle env s .GenerateEd255Key data =
      .done { s with store := (storePut s.store FILENAME_ED255_SECRET
                (keySerialize ⟨⟨true, true⟩, .Ed255, env.randomBytes⟩)) }
        (env.saltyEdPublic env.randomBytes) (.ok ())) ∧
    (handle env s .GenerateX255Key data =
      .done { s with store := (storePut s.store FILENAME_X255_SECRET
                (keySerialize ⟨⟨true, true⟩, .X255, env.randomBytes⟩)) }
        (env.saltyXPublic env.randomBytes) (.ok ())) ∧
    (handle env s .GenerateP256Key data).replyOf =
      (handle env s' .GenerateP256Key data').replyOf ∧
    (handle env s .GenerateEd255Key data).replyOf =
      (handle env s' .GenerateEd255Key data').replyOf ∧
    (handle env s .GenerateX255Key data).replyOf =
      (handle env s' .GenerateX255Key data').replyOf := by
  refine ⟨?_, ?_, ?_, ?_, ?_, ?_⟩ <;>
    simp [handle, h32, hok, Outcome.replyOf]

theorem generateKeys_deterministic_witness :
    envT.randomBytes.length = 32 ∧ envT.storeOk = true ∧
    handle envT emptyState .GenerateP256Key [] =
      .done { emptyState with store := (storePut emptyState.store
                FILENAME_P256_SECRET
                (keySerialize ⟨⟨true, true⟩, .P256, envT.randomBytes⟩)) }
        (envT.nistyPublic envT.randomBytes) (.ok ()) ∧
    (handle envT emptyState .GenerateP256Key []).replyOf =
      (handle envT sFull .GenerateP256Key [5]).replyOf :=
  ⟨by decide, rfl,
   (generateKeys_deterministic envT emptyState sFull [] [5] (by decide) rfl).1,
   (generateKeys_deterministic envT emptyState sFull [] [5] (by decide)
     rfl).2.2.2.1⟩

/-- C6: each save-certificate command fails with `IncorrectDataParameter`
(state unchanged) when its kind's secret record is absent, fails the same
way for payloads shorter than 100 bytes even when the secret exists, and
otherwise (when the store write succeeds) stores the payload verbatim at
the kind's certificate path. -/
theorem saveCert_preconditions (env : Env) (s : Provisioner) (data : List Nat) :
    ((s.store FILENAME_P256_SECRET = none →
        handle env s .SaveP256AttestationCertificate data =
          .done s [] (.error .IncorrectDataParameter)) ∧
     (s.store FILENAME_P256_SECRET ≠ none → data.length < 100 →
        handle env s .SaveP256AttestationCertificate data =
          .done s [] (.error .IncorrectDataParameter)) ∧
     (s.store FILENAME_P256_SECRET ≠ none → 100 ≤ data.length →
        env.storeOk = true →
        handle env s .SaveP256AttestationCertificate data =
          .done { s with store := (storePut s.store FILENAME_P256_CERT data) }
            [] (.ok ()))) ∧
    ((s.store FILENAME_ED255_SECRET = none →
        handle env s .SaveEd255AttestationCertificate data =
          .done s [] (.error .IncorrectDataParameter)) ∧
     (s.store FILENAME_ED255_SECRET ≠ none → data.length < 100 →
        handle env s .SaveEd255AttestationCertificate data =
          .done s [] (.error .IncorrectDataParameter)) ∧
     (s.store FILENAME_ED255_SECRET ≠ none → 100 ≤ data.length →
        env.storeOk = true →
        handle env s .SaveEd255AttestationCertificate data =
          .done { s with store := (storePut s.store FILENAME_ED255_CERT data) }
            [] (.ok ()))) ∧
    ((s.store FILENAME_X255_SECRET = none →
        handle env s .SaveX255AttestationCertificate data =
          .done s [] (.error .IncorrectDataParameter)) ∧
     (s.store FILENAME_X255_SECRET ≠ none → data.length < 100 →
        handle env s .SaveX255AttestationCertificate data =
          .done s [] (.error .IncorrectDataParameter)) ∧
     (s.store FILENAME_X255_SECRET ≠ none → 100 ≤ data.length →
        env.storeOk = true →
        handle env s .SaveX255AttestationCertificate data =
          .done { s with store := (storePut s.store FILENAME_X255_CERT data) }
            [] (.ok ()))) := by
  refine ⟨⟨?_, ?_, ?_⟩, ⟨?_, ?_, ?_⟩, ⟨?_, ?_, ?_⟩⟩ <;>
    first
      | (intro h
         simp only [handle]
         rw [if_pos h])
      | (intro h hlt
         simp only [handle]
         rw [if_neg h, if_pos hlt])
      | (intro h hge hok
         simp only [handle]
         rw [if_neg h, if_neg (Nat.not_lt.mpr hge), hok, if_pos rfl])

def certStore : StoreMap :=
  storePut (storePut (storePut (fun _ => none)
    FILENAME_P256_SECRET [0]) FILENAME_ED255_SECRET [0]) FILENAME_X255_SECRET [0]

/-- A state whose store holds all three secret key records. -/
def sSecrets : Provisioner :=
  { selected_buffer := .Filename
    buffer_filename := []
    buffer_file_contents := []
    store := certStore }

theorem saveCert_preconditions_witness :
    (emptyState.store FILENAME_P256_SECRET = none ∧
      handle envT emptyState .SaveP256AttestationCertificate
          (List.replicate 100 0) =
        .done emptyState [] (.error .IncorrectDataParameter)) ∧
    (sSecrets.store FILENAME_P256_SECRET ≠ none ∧
      (List.replicate 99 0).length < 100 ∧
      handle envT sSecrets .SaveP256AttestationCertificate
          (List.replicate 99 0) =
        .done sSecrets [] (.error .IncorrectDataParameter)) ∧
    (sSecrets.store FILENAME_P256_SECRET ≠ none ∧
      100 ≤ (List.replicate 100 0).length ∧ envT.storeOk = true ∧
      handle envT sSecrets .SaveP256AttestationCertificate
          (List.replicate 100 0) =
        .done { sSecrets with
            store := (storePut sSecrets.store FILENAME_P256_CERT
              (List.replicate 100 0)) } [] (.ok ())) :=
  ⟨⟨rfl, (saveCert_preconditions envT emptyState (List.replicate 100 0)).1.1 rfl⟩,
   ⟨by simp [sSecrets, certStore, storePut], by decide,
    (saveCert_preconditions envT sSecrets (List.replicate 99 0)).1.2.1
      (by simp [sSecrets, certStore, storePut]) (by decide)⟩,
   ⟨by simp [sSecrets, certStore, storePut], by decide, rfl,
    (saveCert_preconditions envT sSecrets (List.replicate 100 0)).1.2.2
      (by simp [sSecrets, certStore, storePut]) (by decide) rfl⟩⟩

/-- C9: the CTAPHID adapter declares vendor codes for exactly the seven
operations select, write-binary, write-file, get-uuid, generate-P256-key,
save-P256-cert and save-T1-intermediate-key; every other vendor code and
every non-vendor command is answered with `InvalidCommand`, the interpreter
untouched (state and reply unchanged). -/
theorem ctaphid_command_set (env : Env) (s : Provisioner) (input : List Nat) :
    (∀ code, (ctaphidDecode code).isSome = true ↔ code ∈ hidCommands) ∧
    ctaphidDecode 0x70 = some .Select ∧
    ctaphidDecode 0x71 = some .WriteBinary ∧
    ctaphidDecode 0x72 = some .WriteFile ∧
    ctaphidDecode 0x73 = some .GetUuid ∧
    ctaphidDecode 0x74 = some .GenerateP256Key ∧
    ctaphidDecode 0x75 = some .SaveP256AttestationCertificate ∧
    ctaphidDecode 0x76 = some .SaveT1IntermediatePublicKey ∧
    (∀ code, code ∉ hidCommands →
      hidCall env s (.vendor code) input = .done s [] (.error .InvalidCommand)) ∧
    hidCall env s .nonVendor input = .done s [] (.error .InvalidCommand) := by
  refine ⟨?_, rfl, rfl, rfl, rfl, rfl, rfl, rfl, ?_, rfl⟩
  · intro code
    simp only [ctaphidDecode, hidCommands, List.mem_cons, List.not_mem_nil,
      or_false]
    split_ifs <;> simp_all
  · intro code hc
    simp only [hidCommands, List.mem_cons, List.not_mem_nil, or_false,
      not_or] at hc
    obtain ⟨h0, h1, h2, h3, h4, h5, h6⟩ := hc
    simp only [hidCall, ctaphidDecode, h0, h1, h2, h3, h4, h5, h6,
      if_false, if_neg]

theorem ctaphid_command_set_witness :
    ((ctaphidDecode 0x42).isSome = true ↔ (0x42 : Nat) ∈ hidCommands) ∧
    ((0x42 : Nat) ∉ hidCommands ∧
      hidCall envT emptyState (.vendor 0x42) [] =
        .done emptyState [] (.error .InvalidCommand)) ∧
    hidCall envT emptyState .nonVendor [] =
      .done emptyState [] (.error .InvalidCommand) :=
  ⟨(ctaphid_command_set envT emptyState []).1 0x42,
   ⟨by decide,
    (ctaphid_command_set envT emptyState []).2.2.2.2.2.2.2.2.1 0x42 (by decide)⟩,
   (ctaphid_command_set envT emptyState []).2.2.2.2.2.2.2.2.2⟩

/-- C8: the APDU and CTAPHID adapters decode their wire codes for the seven
shared operations to the identical `Command` value, and once the decoded
command, the payload, the state and the injected externals agree, the two
adapters produce the same resulting state (hence the same stored records)
and the same reply bytes. -/
theorem transport_equivalence :
    (∀ (p1 p2 : Nat) (data : List Nat),
        (apduDecode ⟨0xA4, p1, p2, data⟩ = .ok .Select ∧
          ctaphidDecode 0x70 = some .Select) ∧
        (apduDecode ⟨0xD0, p1, p2, data⟩ = .ok .WriteBinary ∧
          ctaphidDecode 0x71 = some .WriteBinary) ∧
        (apduDecode ⟨0xbf, p1, p2, data⟩ = .ok .WriteFile ∧
          ctaphidDecode 0x72 = some .WriteFile) ∧
        (apduDecode ⟨0x62, p1, p2, data⟩ = .ok .GetUuid ∧
          ctaphidDecode 0x73 = some .GetUuid) ∧
        (apduDecode ⟨0xbc, p1, p2, data⟩ = .ok .GenerateP256Key ∧
          ctaphidDecode 0x74 = some .GenerateP256Key) ∧
        (apduDecode ⟨0xba, p1, p2, data⟩ = .ok .SaveP256AttestationCertificate ∧
          ctaphidDecode 0x75 = some .SaveP256AttestationCertificate) ∧
        (apduDecode ⟨0xb5, p1, p2, data⟩ = .ok .SaveT1IntermediatePublicKey ∧
          ctaphidDecode 0x76 = some .SaveT1IntermediatePublicKey)) ∧
    (∀ (env : Env) (s : Provisioner) (a : ApduCommand) (code : Nat)
        (c : Command),
        apduDecode a = .ok c → ctaphidDecode code = some c →
        (apduCall env s a).stateOf =
          (hidCall env s (.vendor code) a.data).stateOf ∧
        (apduCall env s a).replyOf =
          (hidCall env s (.vendor code) a.data).replyOf) := by
  constructor
  · intro p1 p2 data
    refine ⟨⟨?_, rfl⟩, ⟨?_, rfl⟩, ⟨?_, rfl⟩, ⟨?_, rfl⟩, ⟨?_, rfl⟩, ⟨?_, rfl⟩,
      ⟨?_, rfl⟩⟩ <;> rfl
  · intro env s a code c hA hH
    simp only [apduCall, hidCall, hA, hH]
    cases h : handle env s c a.data with
    | done st r res =>
        cases res <;> simp [Outcome.stateOf, Outcome.replyOf]
    | panic => simp [Outcome.stateOf, Outcome.replyOf]
    | reboot => simp [Outcome.stateOf, Outcome.replyOf]

theorem transport_equivalence_witness :
    (apduDecode ⟨0xbc, 0, 0, []⟩ = .ok .GenerateP256Key ∧
      ctaphidDecode 0x74 = some .GenerateP256Key) ∧
    (apduCall envT emptyState ⟨0xbc, 0, 0, []⟩).stateOf =
      (hidCall envT emptyState (.vendor 0x74) []).stateOf ∧
    (apduCall envT emptyState ⟨0xbc, 0, 0, []⟩).replyOf =
      (hidCall envT emptyState (.vendor 0x74) []).replyOf :=
  ⟨(transport_equivalence.1 0 0 []).2.2.2.2.1,
   transport_equivalence.2 envT emptyState ⟨0xbc, 0, 0, []⟩ 0x74
     .GenerateP256Key rfl rfl⟩

/-- Sequencing of interpreter invocations across frames: continue with the
next command only when the previous one returned `Ok` (each frame's reply
is delivered separately, so intermediate replies are dropped). -/
def thenOk {E : Type} (o : Outcome E) (f : Provisioner → Outcome E) :
    Outcome E :=
  match o with
  | .done st _ (.ok _) => f st
  | o => o

/-- The chunked-write protocol of the spec's round-trip property: select the
Filename buffer, append `F`, select the File buffer, append `C`, commit
with `WriteFile`. -/
def writeFileSequence (env : Env) (s : Provisioner) (F C : List Nat) :
    Outcome Status :=
  thenOk (handle env s .Select TESTER_FILENAME_ID) fun s1 =>
  thenOk (handle env s1 .WriteBinary F) fun s2 =>
  thenOk (handle env s2 .Select TESTER_FILE_ID) fun s3 =>
  thenOk (handle env s3 .WriteBinary C) fun s4 =>
  handle env s4 .WriteFile []

/-- C2: starting from empty scratch buffers, writing a non-empty filename
`F` of at most 128 bytes and non-empty contents `C` of at most 8192 bytes
via the select/write-binary/write-file sequence (with a succeeding store)
ends with the store holding exactly `C` at path `F` and both buffers
empty. -/
theorem round_trip_file_write (env : Env) (s : Provisioner) (F C : List Nat)
    (hF0 : F ≠ []) (hF : F.length ≤ 128) (hC0 : C ≠ []) (hC : C.length ≤ 8192)
    (hok : env.storeOk = true)
    (hfn : s.buffer_filename = []) (hfc : s.buffer_file_contents = []) :
    writeFileSequence env s F C =
      .done { selected_buffer := .File, buffer_filename := [],
              buffer_file_contents := [], store := (storePut s.store F C) }
        [] (.ok ()) ∧
    storePut s.store F C F = some C := by
  have step1 : handle env s .Select TESTER_FILENAME_ID =
      .done { s with selected_buffer := .Filename } [] (.ok ()) := by
    simp [handle, Provisioner.select, startsWith, TESTER_FILENAME_ID,
      TESTER_FILE_ID]
  have step2 : handle env { s with selected_buffer := .Filename }
      .WriteBinary F =
      .done { s with selected_buffer := .Filename, buffer_filename := F }
        [] (.ok ()) := by
    simp [handle, extendFromSlice, hfn, hF]
  have step3 : handle env
      { s with selected_buffer := .Filename, buffer_filename := F }
      .Select TESTER_FILE_ID =
      .done { s with selected_buffer := .File, buffer_filename := F }
        [] (.ok ()) := by
    simp [handle, Provisioner.select, startsWith, TESTER_FILENAME_ID,
      TESTER_FILE_ID]
  have step4 : handle env
      { s with selected_buffer := .File, buffer_filename := F }
      .WriteBinary C =
      .done { s with selected_buffer := .File, buffer_filename := F,
                     buffer_file_contents := C } [] (.ok ()) := by
    simp [handle, extendFromSlice, hfc, hC]
  have step5 : handle env
      { s with selected_buffer := .File, buffer_filename := F,
               buffer_file_contents := C } .WriteFile [] =
      .done { selected_buffer := .File, buffer_filename := [],
              buffer_file_contents := [], store := (storePut s.store F C) }
        [] (.ok ()) := by
    have hcond : ¬ (C.length = 0 ∨ F.length = 0) := by
      simp [List.length_eq_zero, hF0, hC0]
    simp only [handle]
    rw [if_neg hcond]
    simp [hok]
  unfold writeFileSequence
  rw [step1]
  simp only [thenOk]
  rw [step2]
  simp only [thenOk]
  rw [step3]
  simp only [thenOk]
  rw [step4]
  simp only [thenOk]
  rw [step5]
  exact ⟨rfl, by simp [storePut]⟩

theorem round_trip_file_write_witness :
    (([1] : List Nat) ≠ [] ∧ ([1] : List Nat).length ≤ 128 ∧
     ([2, 3] : List Nat) ≠ [] ∧ ([2, 3] : List Nat).length ≤ 8192 ∧
     envT.storeOk = true ∧ emptyState.buffer_filename = [] ∧
     emptyState.buffer_file_contents = []) ∧
    writeFileSequence envT emptyState [1] [2, 3] =
      .done { selected_buffer := .File, buffer_filename := [],
              buffer_file_contents := [],
              store := (storePut emptyState.store [1] [2, 3]) }
        [] (.ok ()) ∧
    storePut emptyState.store [1] [2, 3] [1] = some [2, 3] :=
  ⟨⟨by decide, by decide, by decide, by decide, rfl, rfl, rfl⟩,
   round_trip_file_write envT emptyState [1] [2, 3]
     (by decide) (by decide) (by decide) (by decide) rfl rfl rfl⟩

/-- C1 counterexample: on the CTAPHID transport, a Select whose payload is
the Filename tag sets `selected_buffer` but leaves the previously non-empty
path buffer exactly as it was — the scratch buffers are not cleared, so the
claim "both scratch buffers are empty afterwards, on both transports" is
false at this input. -/
theorem select_clears_counterexample :
    hidCall envT sFull (.vendor 0x70) TESTER_FILENAME_ID =
      .done { sFull with selected_buffer := .Filename } [] (.ok ()) ∧
    ({ sFull with selected_buffer := SelectedBuffer.Filename }).buffer_filename
      = [1] ∧
    ([1] : List Nat) ≠ [] := by
  refine ⟨rfl, rfl, by simp⟩

/-- C1 (amended): handling a Select command whose payload starts with a
recognized tag sets `selected_buffer` to Filename or File according to the
tag and succeeds, on both transports, leaving the scratch buffers' contents
unchanged; the buffers are cleared only by the APDU application-selection
hook, which replies with the device UUID and does not set
`selected_buffer`. -/
theorem select_sets_buffer (env : Env) (s : Provisioner) (data : List Nat)
    (p1 p2 : Nat) :
    (startsWith data TESTER_FILENAME_ID = true →
      hidCall env s (.vendor 0x70) data =
        .done { s with selected_buffer := .Filename } [] (.ok ()) ∧
      apduCall env s ⟨0xA4, p1, p2, data⟩ =
        .done { s with selected_buffer := .Filename } [] (.ok ())) ∧
    (startsWith data TESTER_FILENAME_ID = false →
     startsWith data TESTER_FILE_ID = true →
      hidCall env s (.vendor 0x70) data =
        .done { s with selected_buffer := .File } [] (.ok ()) ∧
      apduCall env s ⟨0xA4, p1, p2, data⟩ =
        .done { s with selected_buffer := .File } [] (.ok ())) ∧
    apduSelect env s =
      ({ s with buffer_file_contents := [], buffer_filename := [] },
        env.uuid) := by
  refine ⟨?_, ?_, rfl⟩
  · intro h1
    constructor <;>
      simp [hidCall, apduCall, apduDecode, instructionOf, ctaphidDecode,
        handle, Provisioner.select, h1]
  · intro h1 h2
    constructor <;>
      simp [hidCall, apduCall, apduDecode, instructionOf, ctaphidDecode,
        handle, Provisioner.select, h1, h2]

theorem select_sets_buffer_witness :
    (startsWith TESTER_FILENAME_ID TESTER_FILENAME_ID = true ∧
      hidCall envT sFull (.vendor 0x70) TESTER_FILENAME_ID =
        .done { sFull with selected_buffer := .Filename } [] (.ok ())) ∧
    (startsWith TESTER_FILE_ID TESTER_FILENAME_ID = false ∧
     startsWith TESTER_FILE_ID TESTER_FILE_ID = true ∧
      hidCall envT sFull (.vendor 0x70) TESTER_FILE_ID =
        .done { sFull with selected_buffer := .File } [] (.ok ())) :=
  ⟨⟨by decide,
    ((select_sets_buffer envT sFull TESTER_FILENAME_ID 0 0).1 (by decide)).1⟩,
   ⟨by decide, by decide,
    ((select_sets_buffer envT sFull TESTER_FILE_ID 0 0).2.1
      (by decide) (by decide)).1⟩⟩

/-- C3 counterexample: a `WriteFile` rejected because the path buffer is
empty leaves the non-empty content buffer exactly as it was — the buffers
are not cleared on the empty-buffer failure path, so the claim "after every
WriteFile, whatever its outcome, both buffers are empty" is false at this
input. -/
theorem writeFile_always_clears_counterexample :
    handle envT sContentsOnly .WriteFile [] =
      .done sContentsOnly [] (.error .IncorrectDataParameter) ∧
    sContentsOnly.buffer_file_contents = [7] ∧
    ([7] : List Nat) ≠ [] := by
  refine ⟨rfl, rfl, by simp⟩

/-- C3 (amended): after every `WriteFile` command that passes the non-empty
precondition — whether the store write succeeds or fails — both scratch
buffers are empty; a `WriteFile` rejected with `IncorrectDataParameter`
because a buffer is empty leaves the state unchanged instead. -/
theorem writeFile_clears_buffers (env : Env) (s : Provisioner)
    (data : List Nat)
    (hfn : s.buffer_filename ≠ []) (hfc : s.buffer_file_contents ≠ []) :
    (handle env s .WriteFile data).stateOf.map
        (fun st => (st.buffer_filename, st.buffer_file_contents)) =
      some ([], []) := by
  have hcond : ¬ (s.buffer_file_contents.length = 0 ∨
      s.buffer_filename.length = 0) := by
    simp [List.length_eq_zero, hfn, hfc]
  simp only [handle]
  rw [if_neg hcond]
  by_cases hok : env.storeOk = true
  · rw [if_pos hok]
    rfl
  · rw [if_neg hok]
    rfl

theorem writeFile_clears_buffers_witness :
    (sFull.buffer_filename ≠ [] ∧ sFull.buffer_file_contents ≠ []) ∧
    (handle envT sFull .WriteFile []).stateOf.map
        (fun st => (st.buffer_filename, st.buffer_file_contents)) =
      some ([], []) :=
  ⟨⟨by simp [sFull], by simp [sFull]⟩,
   writeFile_clears_buffers envT sFull [] (by simp [sFull]) (by simp [sFull])⟩
